import Mathlib

/-!
Shallow embedding of `src/CSVs_to_excel.py` (a utility that merges every CSV
file of a directory into one Excel workbook, one worksheet per CSV) and proofs
of its specification properties.

Python strings are modelled as Lean `String` (a wrapper around `List Char`,
matching Python's view of a string as a sequence of code points); the string
primitives used by the source (`[:n]` slicing, `str.replace` with a
one-character pattern, `str.endswith`, `str.strip`, `Path.stem` via `rfind`)
are defined below on `String.data`.

The pandas / openpyxl library calls are not part of this repository; they are
modelled as environment inputs: each directory entry carries the outcome of
`pd.read_csv` on it, and the `pd.ExcelWriter` creation / save steps carry an
optional failure cause.  `DataFrame.to_excel` is modelled by the grid it
writes (with its `index` flag made explicit).  `pathlib.Path.glob` on a path
that exists but is not a directory yields no entries, which the model mirrors.
-/

/-- Python `s[:n]` on a string: the first `n` characters. -/
def pySliceTo (s : String) (n : Nat) : String :=
  String.mk (s.data.take n)

/-- Python `s.replace(old, nw)` where `old` and `nw` are single characters:
replaces every occurrence of `old` by `nw`. -/
def pyReplaceChar (s : String) (old nw : Char) : String :=
  String.mk (s.data.map fun ch => if ch = old then nw else ch)

/-- Python `s.endswith(suffix)`: exact, case-sensitive suffix test. -/
def pyEndsWith (s suffix : String) : Bool :=
  suffix.data.isSuffixOf s.data

/-- Python `s.strip()`: remove leading and trailing whitespace. -/
def pyStrip (s : String) : String :=
  String.mk (((s.data.dropWhile Char.isWhitespace).reverse.dropWhile
    Char.isWhitespace).reverse)

/-- Python `s.rfind(c)` for a single character, as an `Option`: the index of
the last occurrence of `c` in `s`, or `none` when absent (Python's `-1`). -/
def pyRfind (l : List Char) (c : Char) : Option Nat :=
  match l with
  | [] => none
  | a :: rest =>
    match pyRfind rest c with
    | some i => some (i + 1)
    | none => if a = c then some 0 else none

/-- `pathlib.PurePath.stem`: the file name without its last suffix.  Pathlib
computes `i = name.rfind('.')` and drops `name[i:]` exactly when
`0 < i < len(name) - 1`. -/
def pyStem (name : String) : String :=
  match pyRfind name.data '.' with
  | some i => if 0 < i ∧ i + 1 < name.data.length then String.mk (name.data.take i) else name
  | none => name

/-- Source lines 46-47: the characters invalid in an Excel sheet name. -/
def invalid_chars : List Char := ['[', ']', '*', '?', ':', '/', '\\']

/-- Source lines 41-49 applied to a stem: truncate to 31 characters
(`worksheet_name[:31]`), then replace each invalid character by `'_'`
(the loop `for char in invalid_chars: worksheet_name.replace(char, '_')`). -/
def worksheet_name_of (stem : String) : String :=
  invalid_chars.foldl (fun ws c => pyReplaceChar ws c '_') (pySliceTo stem 31)

/-- Source lines 95-107: append `.xlsx` when the name does not already end
with it. -/
def validate_output_filename (filename : String) : String :=
  if pyEndsWith filename ".xlsx" then filename else filename ++ ".xlsx"

/-- The output file name `main` (source lines 70, 73) passes to the converter
for a given user response to the filename prompt:
`validate_output_filename(input(...).strip())`. -/
def main_output_filename (response : String) : String :=
  validate_output_filename (pyStrip response)

/-- A parsed table (`pd.read_csv` result): column names from the CSV header
and the data rows; cell values are kept as opaque strings, written as-is. -/
structure Table where
  columns : List String
  rows : List (List String)
deriving DecidableEq, Repr

/-- Outcome of `pd.read_csv` on one file: a table, or an exception message.
pandas is a third-party library, so the outcome is an environment input. -/
inductive ParseOutcome
  | table (t : Table)
  | failure (msg : String)
deriving DecidableEq, Repr

/-- One file of the input directory: its name (with extension) and the
outcome `pd.read_csv` would produce on it. -/
structure CsvEntry where
  name : String
  parsed : ParseOutcome
deriving DecidableEq, Repr

/-- The state of the path handed to `combine_csv_files_to_excel`:
nonexistent, existing but not a directory, or a directory with its files. -/
inductive FolderState
  | missing
  | notDir
  | dir (entries : List CsvEntry)
deriving DecidableEq, Repr

/-- `Path.exists()` (source line 21). -/
def pathExists : FolderState → Bool
  | .missing => false
  | .notDir => true
  | .dir _ => true

/-- Whether a file name matches the glob pattern `*.csv` (source line 25):
`*` matches any (possibly empty) run of characters, so the pattern holds
exactly when the name ends in `.csv`, case-sensitively. -/
def matchesCsvGlob (name : String) : Bool :=
  pyEndsWith name ".csv"

/-- `folder_path.glob("*.csv")` (source line 25).  On a nonexistent path or a
path that is not a directory, `pathlib`'s glob yields no entries. -/
def globCsv : FolderState → List CsvEntry
  | .missing => []
  | .notDir => []
  | .dir entries => entries.filter fun e => matchesCsvGlob e.name

/-- The error raised by a run: `FileNotFoundError` (source lines 22, 28) or
the generic wrapping `Exception` (source line 61). -/
inductive RunError
  | notFound (msg : String)
  | wrapped (msg : String)
deriving DecidableEq, Repr

/-- One worksheet of the output workbook: its name and the grid of cells
written to it. -/
structure Sheet where
  sheet_name : String
  cells : List (List String)
deriving DecidableEq, Repr

/-- The grid `DataFrame.to_excel` writes for a table: with `index = true`
pandas prepends a row-number column (blank header cell, then positions);
with `index = false` (as the source passes on line 52) it writes the header
row followed by the data rows and nothing else. -/
def dataframeGrid (t : Table) (index : Bool) : List (List String) :=
  if index then
    ("" :: t.columns) :: (t.rows.enum.map fun p => toString p.1 :: p.2)
  else
    t.columns :: t.rows

/-- The per-file loop (source lines 35-56): each entry whose parse succeeds
contributes a worksheet named from its sanitized stem, holding the grid of
`to_excel` with `index = false`; each entry whose parse fails contributes one
printed line `Error processing '<name>': <cause>` and no worksheet. -/
def processFiles : List CsvEntry → List Sheet × List String
  | [] => ([], [])
  | e :: es =>
    match e.parsed with
    | .table t =>
      let rest := processFiles es
      ({ sheet_name := worksheet_name_of (pyStem e.name),
         cells := dataframeGrid t false } :: rest.1, rest.2)
    | .failure msg =>
      let rest := processFiles es
      (rest.1, ("Error processing '" ++ e.name ++ "': " ++ msg) :: rest.2)

/-- The observable outcome of one run of `combine_csv_files_to_excel`:
the error it raises (if any), the file it wrote (output path and worksheet
list, `none` when no workbook was saved), and the lines it printed. -/
structure CombineResult where
  error? : Option RunError
  written : Option (String × List Sheet)
  printed : List String
deriving DecidableEq, Repr

/-- Source lines 7-61, `combine_csv_files_to_excel(folder_path,
output_file_name)` (the Python default for `output_file_name` is
`"combined_data.xlsx"`).  `fs` is the state of `folder_path` on disk;
`writerCreate` / `writerSave` are the causes with which `pd.ExcelWriter`
creation (line 34) and the closing save of the `with` block would fail, or
`none` when they succeed — these are openpyxl/OS effects, supplied by the
environment.  The output path is `folder_path / output_file_name`
(line 31). -/
def combine_csv_files_to_excel (folder_path : String) (fs : FolderState)
    (output_file_name : String)
    (writerCreate writerSave : Option String) : CombineResult :=
  if pathExists fs = false then
    { error? := some (.notFound ("Folder '" ++ folder_path ++ "' does not exist.")),
      written := none, printed := [] }
  else
    let csv_files := globCsv fs
    if csv_files.isEmpty then
      { error? := some (.notFound ("No CSV files found in '" ++ folder_path ++ "'.")),
        written := none, printed := [] }
    else
      let output_path := folder_path ++ "/" ++ output_file_name
      match writerCreate with
      | some cause =>
        { error? := some (.wrapped ("Error creating Excel file: " ++ cause)),
          written := none, printed := [] }
      | none =>
        let res := processFiles csv_files
        match writerSave with
        | some cause =>
          { error? := some (.wrapped ("Error creating Excel file: " ++ cause)),
            written := none, printed := res.2 }
        | none =>
          { error? := none,
            written := some (output_path, res.1),
            printed := res.2 ++ ["Success! Combined Excel file saved as: " ++ output_path] }

/-- Whether an entry's parse succeeded (contributes a worksheet). -/
def parsedOk (e : CsvEntry) : Bool :=
  match e.parsed with
  | .table _ => true
  | .failure _ => false

/-! ### Helper lemmas about the string primitives -/

theorem foldl_pyReplaceChar_data (cs : List Char) (s : String) :
    (cs.foldl (fun ws c => pyReplaceChar ws c '_') s).data =
      cs.foldl (fun l c => l.map fun ch => if ch = c then '_' else ch) s.data := by
  induction cs generalizing s with
  | nil => rfl
  | cons c cs ih => exact ih (pyReplaceChar s c '_')

theorem foldl_replace_eq_map (cs : List Char) (l : List Char) :
    cs.foldl (fun l c => l.map fun ch => if ch = c then '_' else ch) l =
      l.map fun ch => if ch ∈ cs then '_' else ch := by
  induction cs generalizing l with
  | nil => simp
  | cons c cs ih =>
    rw [List.foldl_cons, ih, List.map_map]
    have hfun : ((fun ch => if ch ∈ cs then '_' else ch) ∘
        (fun ch => if ch = c then '_' else ch)) =
        fun ch => if ch ∈ c :: cs then '_' else ch := by
      funext ch
      by_cases hc : ch = c
      · subst hc; simp
      · simp [Function.comp, hc, List.mem_cons]
    rw [hfun]

theorem worksheet_name_of_data (stem : String) :
    (worksheet_name_of stem).data =
      (stem.data.take 31).map fun ch => if ch ∈ invalid_chars then '_' else ch := by
  unfold worksheet_name_of
  rw [foldl_pyReplaceChar_data, foldl_replace_eq_map]
  rfl

theorem pyEndsWith_append (s t : String) : pyEndsWith (s ++ t) t = true := by
  simp [pyEndsWith, List.isSuffixOf_iff_suffix, String.data_append]

theorem string_length_eq_data (s : String) : s.length = s.data.length := rfl

/-! ### Claims about the worksheet-name derivation and filename validation -/

/-- C2: worksheet-name derivation is deterministic and total — for every stem
string the derived name is obtained by first truncating to at most 31
characters and then replacing each occurrence of a forbidden character by an
underscore, and the result has length at most 31 and contains none of the
forbidden characters. -/
theorem worksheet_name_of_valid (stem : String) :
    worksheet_name_of stem =
      invalid_chars.foldl (fun ws c => pyReplaceChar ws c '_') (pySliceTo stem 31) ∧
    (worksheet_name_of stem).length ≤ 31 ∧
    ∀ c ∈ (worksheet_name_of stem).data, c ∉ invalid_chars := by
  refine ⟨rfl, ?_, ?_⟩
  · rw [string_length_eq_data, worksheet_name_of_data, List.length_map]
    exact List.length_take_le 31 stem.data
  · intro c hc
    rw [worksheet_name_of_data] at hc
    rcases List.mem_map.mp hc with ⟨a, _, ha⟩
    by_cases hm : a ∈ invalid_chars
    · rw [if_pos hm] at ha
      rw [← ha]; decide
    · rw [if_neg hm] at ha
      rw [← ha]; exact hm

/-- C10: each forbidden character is replaced by exactly one underscore, so a
single-character replacement never changes a string's length; and the full
derivation (truncate to 31, then replace) applied to an already-derived name
returns it unchanged. -/
theorem worksheet_name_of_idem (s : String) (c : Char) :
    (pyReplaceChar s c '_').length = s.length ∧
    worksheet_name_of (worksheet_name_of s) = worksheet_name_of s := by
  constructor
  · show (s.data.map fun ch => if ch = c then '_' else ch).length = s.data.length
    exact List.length_map _ _
  · have hlen : ((worksheet_name_of s).data).length ≤ 31 := by
      rw [worksheet_name_of_data, List.length_map]
      exact List.length_take_le 31 s.data
    apply String.ext
    rw [worksheet_name_of_data (worksheet_name_of s), List.take_of_length_le hlen,
      worksheet_name_of_data s, List.map_map]
    congr 1
    funext ch
    by_cases hm : ch ∈ invalid_chars <;> simp [Function.comp, hm]

/-- C6: output filename normalization appends `.xlsx` exactly when the given
name does not already end with it, and is idempotent. -/
theorem validate_output_filename_spec :
    validate_output_filename "report" = "report.xlsx" ∧
    validate_output_filename "report.xlsx" = "report.xlsx" ∧
    ∀ s : String, validate_output_filename (validate_output_filename s) =
      validate_output_filename s := by
  refine ⟨by decide, by decide, fun s => ?_⟩
  by_cases h : pyEndsWith s ".xlsx" = true
  · simp [validate_output_filename, h]
  · simp [validate_output_filename, h, pyEndsWith_append]

/-- C9: the extension check of `validate_output_filename` is a case-sensitive
exact suffix match on `.xlsx`: a name ending in `.XLSX` gets `.xlsx` appended
anyway, and the empty string becomes exactly `.xlsx`. -/
theorem validate_output_filename_case_sensitive :
    validate_output_filename "report.XLSX" = "report.XLSX.xlsx" ∧
    validate_output_filename "" = ".xlsx" ∧
    ∀ s : String, validate_output_filename (s ++ ".XLSX") = (s ++ ".XLSX") ++ ".xlsx" := by
  refine ⟨by decide, by decide, fun s => ?_⟩
  have h : pyEndsWith (s ++ ".XLSX") ".xlsx" = false := by
    rw [Bool.eq_false_iff]
    intro hc
    simp only [pyEndsWith, List.isSuffixOf_iff_suffix] at hc
    obtain ⟨t, ht⟩ := hc
    have hlast := congrArg List.getLast? ht
    have h1 : ".xlsx".data.getLast? = some 'x' := rfl
    have h2 : ".XLSX".data.getLast? = some 'X' := rfl
    rw [List.getLast?_append, String.data_append, List.getLast?_append, h1, h2] at hlast
    simp only [Option.or_some] at hlast
    exact absurd hlast (by decide)
  simp [validate_output_filename, h]

/-- C7: when the user leaves the output-filename prompt empty, `main` passes
`.xlsx` to the converter — not the advertised default `combined_data.xlsx`. -/
theorem main_output_filename_empty :
    main_output_filename "" = ".xlsx" ∧ (".xlsx" : String) ≠ "combined_data.xlsx" := by
  constructor <;> decide

/-! ### Helper lemmas about the converter -/

theorem processFiles_eq (cs : List CsvEntry) :
    processFiles cs =
      (cs.filterMap (fun e => match e.parsed with
        | .table t => some { sheet_name := worksheet_name_of (pyStem e.name),
                             cells := dataframeGrid t false }
        | .failure _ => none),
       cs.filterMap (fun e => match e.parsed with
        | .table _ => none
        | .failure msg => some ("Error processing '" ++ e.name ++ "': " ++ msg))) := by
  induction cs with
  | nil => rfl
  | cons e es ih =>
    cases hp : e.parsed with
    | table t => simp [processFiles, hp, List.filterMap_cons, ih]
    | failure msg => simp [processFiles, hp, List.filterMap_cons, ih]

theorem filter_csv_ne_nil (entries : List CsvEntry)
    (hcsv : ∃ e ∈ entries, matchesCsvGlob e.name = true) :
    entries.filter (fun e => matchesCsvGlob e.name) ≠ [] := by
  obtain ⟨e, he, hm⟩ := hcsv
  intro h0
  have hnone := List.filter_eq_nil_iff.mp h0 e he
  simp [hm] at hnone

theorem combine_dir_ok (folder_path output_file_name : String) (entries : List CsvEntry)
    (h : entries.filter (fun e => matchesCsvGlob e.name) ≠ []) :
    combine_csv_files_to_excel folder_path (.dir entries) output_file_name none none =
      { error? := none,
        written := some (folder_path ++ "/" ++ output_file_name,
          (processFiles (entries.filter fun e => matchesCsvGlob e.name)).1),
        printed := (processFiles (entries.filter fun e => matchesCsvGlob e.name)).2 ++
          ["Success! Combined Excel file saved as: " ++
            (folder_path ++ "/" ++ output_file_name)] } := by
  unfold combine_csv_files_to_excel
  simp [pathExists, globCsv, List.isEmpty_eq_false.mpr h]

theorem length_filterMap_sheets (cs : List CsvEntry) :
    (cs.filterMap fun e => match e.parsed with
      | .table t => some { sheet_name := worksheet_name_of (pyStem e.name),
                           cells := dataframeGrid t false }
      | .failure _ => (none : Option Sheet)).length = (cs.filter parsedOk).length := by
  induction cs with
  | nil => rfl
  | cons e es ih =>
    cases hp : e.parsed with
    | table t => simp [List.filterMap_cons, List.filter_cons, parsedOk, hp, ih]
    | failure msg => simp [List.filterMap_cons, List.filter_cons, parsedOk, hp, ih]

/-! ### Claims about the converter -/

/-- C1: on an existing directory containing at least one `.csv` file, with no
write obstruction, the run succeeds and writes exactly one workbook containing
exactly one worksheet per CSV that parsed successfully, in enumeration order,
each worksheet holding the header row from the column names followed by one
row per data row, with no index column. -/
theorem combine_success (folder_path output_file_name : String)
    (entries : List CsvEntry)
    (hcsv : ∃ e ∈ entries, matchesCsvGlob e.name = true) :
    (combine_csv_files_to_excel folder_path (.dir entries) output_file_name
      none none).error? = none ∧
    (combine_csv_files_to_excel folder_path (.dir entries) output_file_name
      none none).written =
      some (folder_path ++ "/" ++ output_file_name,
        (entries.filter fun e => matchesCsvGlob e.name).filterMap fun e =>
          match e.parsed with
          | .table t => some { sheet_name := worksheet_name_of (pyStem e.name),
                               cells := t.columns :: t.rows }
          | .failure _ => none) := by
  have hfun : (fun e : CsvEntry => match e.parsed with
      | .table t => some ({ sheet_name := worksheet_name_of (pyStem e.name),
                            cells := dataframeGrid t false } : Sheet)
      | .failure _ => (none : Option Sheet)) =
      fun e : CsvEntry => match e.parsed with
      | .table t => some { sheet_name := worksheet_name_of (pyStem e.name),
                           cells := t.columns :: t.rows }
      | .failure _ => none := by
    funext e
    cases hp : e.parsed <;> simp [hp, dataframeGrid]
  rw [combine_dir_ok folder_path output_file_name entries
    (filter_csv_ne_nil entries hcsv)]
  refine ⟨rfl, ?_⟩
  simp only [processFiles_eq, hfun]

/-- C5: per-file parse failures are non-fatal: the run succeeds, every failing
CSV contributes exactly one diagnostic line of the form
`Error processing '<filename>': <cause>` and no worksheet, the remaining files
each contribute one worksheet, and one success line follows the diagnostics. -/
theorem combine_per_file_failures (folder_path output_file_name : String)
    (entries : List CsvEntry)
    (hcsv : ∃ e ∈ entries, matchesCsvGlob e.name = true) :
    (combine_csv_files_to_excel folder_path (.dir entries) output_file_name
      none none).error? = none ∧
    (combine_csv_files_to_excel folder_path (.dir entries) output_file_name
      none none).printed =
      ((entries.filter fun e => matchesCsvGlob e.name).filterMap fun e =>
        match e.parsed with
        | .table _ => none
        | .failure msg => some ("Error processing '" ++ e.name ++ "': " ++ msg)) ++
      ["Success! Combined Excel file saved as: " ++
        (folder_path ++ "/" ++ output_file_name)] ∧
    ∃ sheets,
      (combine_csv_files_to_excel folder_path (.dir entries) output_file_name
        none none).written =
        some (folder_path ++ "/" ++ output_file_name, sheets) ∧
      sheets.length =
        ((entries.filter fun e => matchesCsvGlob e.name).filter parsedOk).length := by
  rw [combine_dir_ok folder_path output_file_name entries
    (filter_csv_ne_nil entries hcsv)]
  refine ⟨rfl, ?_, ?_⟩
  · simp only [processFiles_eq]
  · refine ⟨(processFiles (entries.filter fun e => matchesCsvGlob e.name)).1, rfl, ?_⟩
    simp only [processFiles_eq]
    exact length_filterMap_sheets _

/-- C3: on a path that does not exist, or that exists but is not a directory,
the run fails with a FileNotFoundError and writes no output file. -/
theorem combine_not_found (folder_path output_file_name : String)
    (fs : FolderState) (wc ws : Option String)
    (h : fs = FolderState.missing ∨ fs = FolderState.notDir) :
    (∃ msg, (combine_csv_files_to_excel folder_path fs output_file_name
      wc ws).error? = some (.notFound msg)) ∧
    (combine_csv_files_to_excel folder_path fs output_file_name wc ws).written
      = none := by
  rcases h with h | h <;> subst h
  · exact ⟨⟨"Folder '" ++ folder_path ++ "' does not exist.", rfl⟩, rfl⟩
  · exact ⟨⟨"No CSV files found in '" ++ folder_path ++ "'.", rfl⟩, rfl⟩

/-- C4: on an existing directory containing no file whose name ends in `.csv`
(case-sensitive match), the run raises a FileNotFoundError naming the folder
and writes no output file. -/
theorem combine_no_csv_found (folder_path output_file_name : String)
    (entries : List CsvEntry) (wc ws : Option String)
    (h : ∀ e ∈ entries, pyEndsWith e.name ".csv" = false) :
    combine_csv_files_to_excel folder_path (.dir entries) output_file_name wc ws =
      { error? :=
          some (.notFound ("No CSV files found in '" ++ folder_path ++ "'.")),
        written := none, printed := [] } := by
  have hnil : entries.filter (fun e => matchesCsvGlob e.name) = [] := by
    rw [List.filter_eq_nil_iff]
    intro e he
    simp [matchesCsvGlob, h e he]
  unfold combine_csv_files_to_excel
  simp [pathExists, globCsv, hnil]

/-- C8: when workbook creation or finalization fails, the run aborts with the
wrapping error `Error creating Excel file: <cause>`, which includes the
underlying cause, writes no file, and is a different constructor from the
not-found error, so the caller sees a typed failure distinguishing the two. -/
theorem combine_writer_failure (folder_path output_file_name cause : String)
    (entries : List CsvEntry) (ws : Option String)
    (hcsv : ∃ e ∈ entries, matchesCsvGlob e.name = true) :
    ((combine_csv_files_to_excel folder_path (.dir entries) output_file_name
        (some cause) ws).error? =
        some (.wrapped ("Error creating Excel file: " ++ cause)) ∧
      (combine_csv_files_to_excel folder_path (.dir entries) output_file_name
        (some cause) ws).written = none) ∧
    ((combine_csv_files_to_excel folder_path (.dir entries) output_file_name
        none (some cause)).error? =
        some (.wrapped ("Error creating Excel file: " ++ cause)) ∧
      (combine_csv_files_to_excel folder_path (.dir entries) output_file_name
        none (some cause)).written = none) ∧
    (∀ m n : String, RunError.wrapped m ≠ RunError.notFound n) := by
  have hne := filter_csv_ne_nil entries hcsv
  unfold combine_csv_files_to_excel
  simp [pathExists, globCsv, List.isEmpty_eq_false.mpr hne]

/-! ### Concrete witnesses -/

/-- Witness for C1: a directory holding one parseable CSV and one non-CSV
file. -/
theorem combine_success_witness :
    (∃ e ∈ [CsvEntry.mk "sales.csv"
              (.table (Table.mk ["id", "amount"] [["1", "10"], ["2", "20"]])),
            CsvEntry.mk "readme.txt" (.failure "skip")],
      matchesCsvGlob e.name = true) ∧
    ((combine_csv_files_to_excel "data"
        (.dir [CsvEntry.mk "sales.csv"
                 (.table (Table.mk ["id", "amount"] [["1", "10"], ["2", "20"]])),
               CsvEntry.mk "readme.txt" (.failure "skip")])
        "out.xlsx" none none).error? = none ∧
      (combine_csv_files_to_excel "data"
        (.dir [CsvEntry.mk "sales.csv"
                 (.table (Table.mk ["id", "amount"] [["1", "10"], ["2", "20"]])),
               CsvEntry.mk "readme.txt" (.failure "skip")])
        "out.xlsx" none none).written =
        some ("data" ++ "/" ++ "out.xlsx",
          ([CsvEntry.mk "sales.csv"
              (.table (Table.mk ["id", "amount"] [["1", "10"], ["2", "20"]])),
            CsvEntry.mk "readme.txt" (.failure "skip")].filter
              fun e => matchesCsvGlob e.name).filterMap fun e =>
            match e.parsed with
            | .table t => some { sheet_name := worksheet_name_of (pyStem e.name),
                                 cells := t.columns :: t.rows }
            | .failure _ => none)) :=
  ⟨by decide,
    combine_success "data" "out.xlsx"
      [CsvEntry.mk "sales.csv"
         (.table (Table.mk ["id", "amount"] [["1", "10"], ["2", "20"]])),
       CsvEntry.mk "readme.txt" (.failure "skip")] (by decide)⟩

/-- Witness for C5: three CSVs of which one is malformed. -/
theorem combine_per_file_failures_witness :
    (∃ e ∈ [CsvEntry.mk "a.csv" (.table (Table.mk ["x"] [["1"]])),
            CsvEntry.mk "bad.csv" (.failure "ParserError: bad line"),
            CsvEntry.mk "c.csv" (.table (Table.mk ["y"] [["2"]]))],
      matchesCsvGlob e.name = true) ∧
    ((combine_csv_files_to_excel "data"
        (.dir [CsvEntry.mk "a.csv" (.table (Table.mk ["x"] [["1"]])),
               CsvEntry.mk "bad.csv" (.failure "ParserError: bad line"),
               CsvEntry.mk "c.csv" (.table (Table.mk ["y"] [["2"]]))])
        "out.xlsx" none none).error? = none ∧
      (combine_csv_files_to_excel "data"
        (.dir [CsvEntry.mk "a.csv" (.table (Table.mk ["x"] [["1"]])),
               CsvEntry.mk "bad.csv" (.failure "ParserError: bad line"),
               CsvEntry.mk "c.csv" (.table (Table.mk ["y"] [["2"]]))])
        "out.xlsx" none none).printed =
        (([CsvEntry.mk "a.csv" (.table (Table.mk ["x"] [["1"]])),
           CsvEntry.mk "bad.csv" (.failure "ParserError: bad line"),
           CsvEntry.mk "c.csv" (.table (Table.mk ["y"] [["2"]]))].filter
            fun e => matchesCsvGlob e.name).filterMap fun e =>
          match e.parsed with
          | .table _ => none
          | .failure msg => some ("Error processing '" ++ e.name ++ "': " ++ msg)) ++
        ["Success! Combined Excel file saved as: " ++ ("data" ++ "/" ++ "out.xlsx")] ∧
      ∃ sheets,
        (combine_csv_files_to_excel "data"
          (.dir [CsvEntry.mk "a.csv" (.table (Table.mk ["x"] [["1"]])),
                 CsvEntry.mk "bad.csv" (.failure "ParserError: bad line"),
                 CsvEntry.mk "c.csv" (.table (Table.mk ["y"] [["2"]]))])
          "out.xlsx" none none).written =
          some ("data" ++ "/" ++ "out.xlsx", sheets) ∧
        sheets.length =
          (([CsvEntry.mk "a.csv" (.table (Table.mk ["x"] [["1"]])),
             CsvEntry.mk "bad.csv" (.failure "ParserError: bad line"),
             CsvEntry.mk "c.csv" (.table (Table.mk ["y"] [["2"]]))].filter
              fun e => matchesCsvGlob e.name).filter parsedOk).length) :=
  ⟨by decide,
    combine_per_file_failures "data" "out.xlsx"
      [CsvEntry.mk "a.csv" (.table (Table.mk ["x"] [["1"]])),
       CsvEntry.mk "bad.csv" (.failure "ParserError: bad line"),
       CsvEntry.mk "c.csv" (.table (Table.mk ["y"] [["2"]]))] (by decide)⟩

/-- Witness for C3 at a nonexistent path. -/
theorem combine_not_found_witness :
    (FolderState.missing = FolderState.missing ∨
      FolderState.missing = FolderState.notDir) ∧
    ((∃ msg, (combine_csv_files_to_excel "no_such_dir" FolderState.missing
        "out.xlsx" none none).error? = some (.notFound msg)) ∧
      (combine_csv_files_to_excel "no_such_dir" FolderState.missing
        "out.xlsx" none none).written = none) :=
  ⟨Or.inl rfl,
    combine_not_found "no_such_dir" "out.xlsx" FolderState.missing none none
      (Or.inl rfl)⟩

/-- Witness for C4: a directory whose files end in `.txt` and `.CSV` only. -/
theorem combine_no_csv_found_witness :
    (∀ e ∈ [CsvEntry.mk "notes.txt" (.failure "boom"),
            CsvEntry.mk "DATA.CSV" (.table (Table.mk [] []))],
      pyEndsWith e.name ".csv" = false) ∧
    combine_csv_files_to_excel "data"
      (.dir [CsvEntry.mk "notes.txt" (.failure "boom"),
             CsvEntry.mk "DATA.CSV" (.table (Table.mk [] []))])
      "out.xlsx" none none =
      { error? := some (.notFound ("No CSV files found in '" ++ "data" ++ "'.")),
        written := none, printed := [] } :=
  ⟨by decide,
    combine_no_csv_found "data" "out.xlsx"
      [CsvEntry.mk "notes.txt" (.failure "boom"),
       CsvEntry.mk "DATA.CSV" (.table (Table.mk [] []))] none none (by decide)⟩

/-- Witness for C8: finalization failing with a permission error. -/
theorem combine_writer_failure_witness :
    (∃ e ∈ [CsvEntry.mk "a.csv" (.table (Table.mk ["x"] []))],
      matchesCsvGlob e.name = true) ∧
    (((combine_csv_files_to_excel "data"
        (.dir [CsvEntry.mk "a.csv" (.table (Table.mk ["x"] []))])
        "out.xlsx" (some "Permission denied") none).error? =
        some (.wrapped ("Error creating Excel file: " ++ "Permission denied")) ∧
      (combine_csv_files_to_excel "data"
        (.dir [CsvEntry.mk "a.csv" (.table (Table.mk ["x"] []))])
        "out.xlsx" (some "Permission denied") none).written = none) ∧
    ((combine_csv_files_to_excel "data"
        (.dir [CsvEntry.mk "a.csv" (.table (Table.mk ["x"] []))])
        "out.xlsx" none (some "Permission denied")).error? =
        some (.wrapped ("Error creating Excel file: " ++ "Permission denied")) ∧
      (combine_csv_files_to_excel "data"
        (.dir [CsvEntry.mk "a.csv" (.table (Table.mk ["x"] []))])
        "out.xlsx" none (some "Permission denied")).written = none) ∧
    (∀ m n : String, RunError.wrapped m ≠ RunError.notFound n)) :=
  ⟨by decide,
    combine_writer_failure "data" "out.xlsx" "Permission denied"
      [CsvEntry.mk "a.csv" (.table (Table.mk ["x"] []))] none (by decide)⟩
